import Mathlib

/-!
Shallow embedding of the marker lint-framework core (marker_api / linter_api)
and proofs of the specification claims about it.

The definitions mirror the Rust source files:
  - src/marker_api/src/ast/common/span.rs   (SpanSource, Span, Ident)
  - src/marker_api/src/context.rs           (AST_CX slot, set_ast_cx, with_cx,
                                             AstContext, DriverCallbacks)
  - src/marker_api/src/ast/expr.rs          (ExprKind, LitExprKind, ExprPrecedence)
  - src/linter_api/src/lib.rs               (LintPass trait and its defaults)

Rust `usize` values are modelled as Nat (no arithmetic is performed on them in
the modelled code, only stores and comparisons). The thread-local context slot
is modelled as an explicit `Option AstContext` value threaded through the
functions that touch it; a Rust panic (the `expect` in `with_cx`) is modelled
as `Except.error`. Driver callbacks are modelled as pure function fields; the
diagnostics a call hands to the driver's emit callback are returned as a list.
-/

namespace Marker

/-! Span and provenance model, from src/marker_api/src/ast/common/span.rs. -/

/-- Mirrors `enum SpanSource` (span.rs lines 18-26): `File(FfiStr)`,
`Macro(SpanSrcId)`, `Sugar(FfiStr, SpanSrcId)`. `FfiStr` is modelled as
`String`, `SpanSrcId` as `Nat`. -/
inductive SpanSource where
  | File (path : String)
  | Macro (id : Nat)
  | Sugar (path : String) (id : Nat)
deriving DecidableEq, Repr

/-- Mirrors `struct Span` (span.rs lines 28-36): a provenance source plus
byte positions `start` and `end`. The Rust field `end` is named `endPos`
here because `end` is a Lean keyword. -/
structure Span where
  source : SpanSource
  start : Nat
  endPos : Nat
deriving DecidableEq, Repr

/-- Mirrors `Span::is_from_file` (span.rs lines 39-41):
`matches!(self.source, SpanSource::File(..) | SpanSource::Sugar(..))`. -/
def Span.is_from_file (s : Span) : Bool :=
  match s.source with
  | SpanSource.File _ => true
  | SpanSource.Sugar _ _ => true
  | SpanSource.Macro _ => false

/-- Mirrors `Span::is_from_macro` (span.rs lines 43-45):
`matches!(self.source, SpanSource::Macro(..))`. -/
def Span.is_from_macro (s : Span) : Bool :=
  match s.source with
  | SpanSource.Macro _ => true
  | _ => false

/-- Mirrors `Span::is_empty` (span.rs lines 49-51): `self.start == self.end`. -/
def Span.is_empty (s : Span) : Bool :=
  s.start == s.endPos

/-- Mirrors `Span::is_same_source` (span.rs lines 55-57): `self.source == other.source`. -/
def Span.is_same_source (s other : Span) : Bool :=
  s.source == other.source

/-- Mirrors `Span::set_start` (span.rs lines 63-65): stores the given value,
with no check against `end`. -/
def Span.set_start (s : Span) (start : Nat) : Span :=
  { s with start := start }

/-- Mirrors `Span::set_end` (span.rs lines 71-73): stores the given value,
with no check against `start`. -/
def Span.set_end (s : Span) (endPos : Nat) : Span :=
  { s with endPos := endPos }

/-- Mirrors `Span::new` (span.rs lines 126-128): builds the struct from its
three fields, with no validation. -/
def Span.new (source : SpanSource) (start : Nat) (endPos : Nat) : Span :=
  { source := source, start := start, endPos := endPos }

end Marker

namespace Marker

/-! Lint and diagnostic data, used by context.rs. The `lint` and `diagnostic`
modules of marker_api are not among the given source files, so the types
below are modelled from the spec; context.rs fixes which constructors exist
(`Level::Allow`, `MacroReport::No`) and how they are consumed. -/

/-- Modelled from the spec: lint levels resolved by the host
("host-specific allow/warn/deny overrides", spec section 4.2); `Level::Allow`
is matched in context.rs line 133. The exact constructor list of the missing
lint.rs does not matter to the claims, only that `Allow` is one level among
others. -/
inductive Level where
  | Allow
  | Warn
  | Deny
  | Forbid
deriving DecidableEq, Repr

/-- Modelled from the spec: the macro-report policy of a lint
("never report inside macros", spec section 4.2); `MacroReport::No` is
matched in context.rs line 129. -/
inductive MacroReport where
  | No
  | All
deriving DecidableEq, Repr

/-- Modelled from the spec: a lint as consumed by `emit_lint`; context.rs
reads only its `report_in_macro` field (line 129). A name field keeps
distinct lints distinguishable. -/
structure Lint where
  name : String
  report_in_macro : MacroReport
deriving DecidableEq, Repr

/-- Modelled from the spec: an emission node handle (`EmissionNode`), an
opaque id of the node a lint is emitted at. -/
structure EmissionNode where
  id : Nat
deriving DecidableEq, Repr

/-- Modelled from the spec: applicability of a suggestion, named in the doc
comment of `Span::snippet_with_applicability` (span.rs lines 102-110):
`Unspecified`, `MaybeIncorrect`, `HasPlaceholders`, `MachineApplicable`. -/
inductive Applicability where
  | MachineApplicable
  | MaybeIncorrect
  | HasPlaceholders
  | Unspecified
deriving DecidableEq, Repr

/-- Modelled from the spec: the diagnostic builder that `emit_lint` constructs
with `DiagnosticBuilder::new(lint, node, msg.to_string(), span.clone())`
(context.rs line 134) and that the decoration closure mutates (attaching
suggestions and notes, spec section 4.2). The `notes` field stands for
whatever the decoration step attaches. -/
structure DiagnosticBuilder where
  lint : Lint
  node : EmissionNode
  msg : String
  span : Span
  notes : List String
deriving DecidableEq, Repr

/-- Mirrors `DiagnosticBuilder::new` as called from context.rs line 134:
a fresh builder with no decorations yet. -/
def DiagnosticBuilder.new (lint : Lint) (node : EmissionNode) (msg : String)
    (span : Span) : DiagnosticBuilder :=
  { lint := lint, node := node, msg := msg, span := span, notes := [] }

/-- Modelled from the spec: the semantic type of an expression (`SemTyKind`),
opaque to the claims. -/
structure SemTyKind where
  id : Nat
deriving DecidableEq, Repr

end Marker

namespace Marker

/-! Context facade and driver callbacks, from src/marker_api/src/context.rs. -/

/-- Mirrors `struct DriverCallbacks` (context.rs lines 222-252): the fixed
table of function pointers a driver populates. The opaque `driver_context`
first argument is absorbed into the function values (partial application);
only the callbacks the claims exercise are modelled. The `emit_diag`
callback's side effect is modelled by returning the emitted diagnostics
from the functions that invoke it. -/
structure DriverCallbacks where
  lint_level_at : Lint → EmissionNode → Level
  span_snippet : Span → Option String
  span : Nat → Span
  symbol_str : Nat → String
  expr_ty : Nat → SemTyKind

/-- Mirrors `DriverCallbacks::call_lint_level_at` (context.rs lines 255-257). -/
def DriverCallbacks.call_lint_level_at (d : DriverCallbacks) (lint : Lint)
    (node : EmissionNode) : Level :=
  d.lint_level_at lint node

/-- Mirrors `DriverCallbacks::call_span_snippet` (context.rs lines 276-279). -/
def DriverCallbacks.call_span_snippet (d : DriverCallbacks) (s : Span) : Option String :=
  d.span_snippet s

/-- Mirrors `DriverCallbacks::call_span` (context.rs lines 273-275). -/
def DriverCallbacks.call_span (d : DriverCallbacks) (id : Nat) : Span :=
  d.span id

/-- Mirrors `DriverCallbacks::call_symbol_str` (context.rs lines 280-282). -/
def DriverCallbacks.call_symbol_str (d : DriverCallbacks) (sym : Nat) : String :=
  d.symbol_str sym

/-- Mirrors `DriverCallbacks::call_expr_ty` (context.rs lines 270-272). -/
def DriverCallbacks.call_expr_ty (d : DriverCallbacks) (id : Nat) : SemTyKind :=
  d.expr_ty id

/-- Mirrors `struct AstContext` (context.rs lines 84-87): a wrapper around the
driver callback table. -/
structure AstContext where
  driver : DriverCallbacks

/-- Mirrors `AstContext::lint_level_at` (context.rs lines 114-116). -/
def AstContext.lint_level_at (cx : AstContext) (lint : Lint) (node : EmissionNode) : Level :=
  cx.driver.call_lint_level_at lint node

/-- Mirrors `AstContext::emit_diagnostic` (context.rs lines 140-142): hands
the diagnostic to the driver's emit callback. In this pure model the effect
is the singleton list of diagnostics given to the driver. -/
def AstContext.emit_diagnostic (_cx : AstContext) (diag : DiagnosticBuilder) :
    List DiagnosticBuilder :=
  [diag]

/-- Modelled from the spec: `DiagnosticBuilder::emit` (called in context.rs
line 136; its body lives in the missing diagnostic.rs) hands the finished
diagnostic to the host via `AstContext::emit_diagnostic` (spec section 4.2:
"then hands the diagnostic to the host for final rendering"). -/
def DiagnosticBuilder.emit (b : DiagnosticBuilder) (cx : AstContext) :
    List DiagnosticBuilder :=
  cx.emit_diagnostic b

/-- The observable outcome of one `emit_lint` call: the diagnostics handed to
the driver's emit callback, and how often the decoration closure ran. -/
structure EmitLintOut where
  emitted : List DiagnosticBuilder
  decorations : Nat
deriving DecidableEq, Repr

/-- Mirrors `AstContext::emit_lint` (context.rs lines 119-138):

1. if `matches!(lint.report_in_macro, MacroReport::No) && span.is_from_macro()`,
   return at once (line 129-131);
2. otherwise, if `self.lint_level_at(lint, node) != Level::Allow` (line 133),
   build a `DiagnosticBuilder`, run the decoration closure on it once, and
   emit it (lines 134-136); else do nothing. -/
def AstContext.emit_lint (cx : AstContext) (lint : Lint) (node : EmissionNode)
    (msg : String) (span : Span) (decorate : DiagnosticBuilder → DiagnosticBuilder) :
    EmitLintOut :=
  if lint.report_in_macro = MacroReport.No ∧ span.is_from_macro = true then
    { emitted := [], decorations := 0 }
  else if cx.lint_level_at lint node ≠ Level.Allow then
    let builder := DiagnosticBuilder.new lint node msg span
    let builder := decorate builder
    { emitted := builder.emit cx, decorations := 1 }
  else
    { emitted := [], decorations := 0 }

/-- The panic message of the `expect` in `with_cx` (context.rs line 72),
with the Rust backtick quoting dropped. -/
def withCxPanicMsg : String :=
  "with_cx should only be called by nodes once the context has been set"

/-- Mirrors `set_ast_cx` (context.rs lines 39-46): the thread-local slot is
unconditionally replaced with the new context (`cx.replace(Some(cx_static))`,
the previous value being discarded). The function returns the new slot value. -/
def set_ast_cx (_slot : Option AstContext) (cx : AstContext) : Option AstContext :=
  some cx

/-- Mirrors `with_cx` (context.rs lines 64-80): reads the thread-local slot;
an empty slot hits the `expect` (line 72) and panics, modelled as
`Except.error`; otherwise the continuation runs on the stored context. -/
def with_cx {R : Type} (slot : Option AstContext) (f : AstContext → R) : Except String R :=
  match slot with
  | none => Except.error withCxPanicMsg
  | some cx => Except.ok (f cx)

/-- Mirrors `AstContext::span_snipped` (context.rs lines 190-192). -/
def AstContext.span_snipped (cx : AstContext) (s : Span) : Option String :=
  cx.driver.call_span_snippet s

/-- Mirrors the private `AstContext::span` (context.rs lines 194-196). -/
def AstContext.span (cx : AstContext) (id : Nat) : Span :=
  cx.driver.call_span id

/-- Mirrors `AstContext::symbol_str` (context.rs lines 198-200). -/
def AstContext.symbol_str (cx : AstContext) (sym : Nat) : String :=
  cx.driver.call_symbol_str sym

/-- Mirrors `AstContext::expr_ty` (context.rs lines 184-186). -/
def AstContext.expr_ty (cx : AstContext) (id : Nat) : SemTyKind :=
  cx.driver.call_expr_ty id

/-- Mirrors `Span::snippet` (span.rs lines 76-78):
`with_cx(self, |cx| cx.span_snipped(self))`. The thread-local slot is an
explicit argument in this model. -/
def Span.snippet (slot : Option AstContext) (s : Span) : Except String (Option String) :=
  with_cx slot fun cx => cx.span_snipped s

/-- Mirrors `Span::snippet_with_applicability` (span.rs lines 111-121), with
the `&mut Applicability` modelled by returning the updated value:

1. if the applicability is not `Unspecified` and the span is from a macro,
   it becomes `MaybeIncorrect` (lines 112-114);
2. if the snippet is unavailable, the default string is returned, and an
   applicability of `MachineApplicable` becomes `HasPlaceholders`
   (lines 115-120); an available snippet is returned as is. -/
def Span.snippet_with_applicability (slot : Option AstContext) (s : Span)
    (default : String) (applicability : Applicability) :
    Except String (String × Applicability) :=
  let a1 := if applicability ≠ Applicability.Unspecified ∧ s.is_from_macro = true then
    Applicability.MaybeIncorrect
  else
    applicability
  match Span.snippet slot s with
  | Except.error e => Except.error e
  | Except.ok (some text) => Except.ok (text, a1)
  | Except.ok none =>
      Except.ok (default,
        if a1 = Applicability.MachineApplicable then Applicability.HasPlaceholders else a1)

/-- Mirrors `struct Ident` (span.rs lines 135-141): a symbol id and a span id. -/
structure Ident where
  sym : Nat
  span : Nat
deriving DecidableEq, Repr

/-- Mirrors `Ident::name` (span.rs lines 144-146):
`with_cx(self, |cx| cx.symbol_str(self.sym))`. -/
def Ident.name (slot : Option AstContext) (i : Ident) : Except String String :=
  with_cx slot fun cx => cx.symbol_str i.sym

/-- Mirrors `Ident::span` (span.rs lines 148-150):
`with_cx(self, |cx| cx.span(self.span))`. Named `span_of` because the field
already uses the name `span`. -/
def Ident.span_of (slot : Option AstContext) (i : Ident) : Except String Span :=
  with_cx slot fun cx => cx.span i.span

/-- Mirrors `CommonExprData` (expr.rs lines 280-289): the id and span id every
concrete expression node carries. -/
structure CommonExprData where
  id : Nat
  span : Nat
deriving DecidableEq, Repr

/-- Mirrors the `span` accessor generated by `impl_expr_data` (expr.rs lines
316-318): `with_cx(self, |cx| cx.span(self.data.span))`. -/
def exprDataSpan (slot : Option AstContext) (data : CommonExprData) : Except String Span :=
  with_cx slot fun cx => cx.span data.span

/-- Mirrors the `ty` accessor generated by `impl_expr_data` (expr.rs lines
320-322): `with_cx(self, |cx| cx.expr_ty(self.data.id))`. -/
def exprDataTy (slot : Option AstContext) (data : CommonExprData) : Except String SemTyKind :=
  with_cx slot fun cx => cx.expr_ty data.id

end Marker

namespace Marker

/-! Expression kind model, from src/marker_api/src/ast/expr.rs. -/

/-- Modelled from the spec: the unary operator kinds of `UnaryOpExpr::kind`
(op_exprs.rs is not among the given source files). expr.rs line 145 compares
against `UnaryOpKind::Neg`; the precedence table (expr.rs lines 185-192)
names the unary operators `-`, `!`, `*` and `&`, of which `-` is `Neg`. -/
inductive UnaryOpKind where
  | Neg
  | Not
  | Deref
deriving DecidableEq, Repr

/-- Modelled from the spec: opaque literal expression node (`IntLitExpr`,
lit_expr.rs is not among the given source files); the claims treat it as an
opaque reference, identified here by an id. -/
structure IntLitExpr where
  id : Nat
deriving DecidableEq, Repr

/-- Modelled from the spec: opaque `FloatLitExpr` node. -/
structure FloatLitExpr where
  id : Nat
deriving DecidableEq, Repr

/-- Modelled from the spec: opaque `StrLitExpr` node. -/
structure StrLitExpr where
  id : Nat
deriving DecidableEq, Repr

/-- Modelled from the spec: opaque `CharLitExpr` node. -/
structure CharLitExpr where
  id : Nat
deriving DecidableEq, Repr

/-- Modelled from the spec: opaque `BoolLitExpr` node. -/
structure BoolLitExpr where
  id : Nat
deriving DecidableEq, Repr

/-- Mirrors `CtorBlocker` (used in expr.rs line 110): a zero-sized marker that
keeps external code from constructing the variant directly. -/
inductive CtorBlocker where
  | new
deriving DecidableEq, Repr

mutual

/-- Mirrors `enum ExprKind` (expr.rs lines 50-87): one variant per concrete
expression node, each holding a borrowed reference to that node. Only the
literal nodes and `UnaryOpExpr` matter structurally to the claims; the other
variants hold their node as an opaque id. References are modelled by the
node values themselves, so "identical reference" becomes equality of the
embedded node. -/
inductive ExprKind where
  | IntLit (e : IntLitExpr)
  | FloatLit (e : FloatLitExpr)
  | StrLit (e : StrLitExpr)
  | CharLit (e : CharLitExpr)
  | BoolLit (e : BoolLitExpr)
  | Block (id : Nat)
  | Closure (id : Nat)
  | UnaryOp (e : UnaryOpExpr)
  | Ref (id : Nat)
  | BinaryOp (id : Nat)
  | QuestionMark (id : Nat)
  | Assign (id : Nat)
  | As (id : Nat)
  | Path (id : Nat)
  | Call (id : Nat)
  | Method (id : Nat)
  | Array (id : Nat)
  | Tuple (id : Nat)
  | Ctor (id : Nat)
  | Range (id : Nat)
  | Index (id : Nat)
  | Field (id : Nat)
  | If (id : Nat)
  | Let (id : Nat)
  | Match (id : Nat)
  | Break (id : Nat)
  | Return (id : Nat)
  | Continue (id : Nat)
  | For (id : Nat)
  | Loop (id : Nat)
  | While (id : Nat)
  | Await (id : Nat)
  | Unstable (id : Nat)

/-- Modelled from the spec: `UnaryOpExpr` (op_exprs.rs is not among the given
source files). expr.rs line 145 reads its operator via `expr.kind()` and its
operand via `expr.expr()`; the operand is itself an `ExprKind`, which makes
the type mutually inductive with `ExprKind`. The `id` field stands for the
node's `CommonExprData`. -/
inductive UnaryOpExpr where
  | mk (op_kind : UnaryOpKind) (operand : ExprKind) (id : Nat)

end

/-- Mirrors `UnaryOpExpr::kind`, the operator accessor read in expr.rs line 145. -/
def UnaryOpExpr.kind : UnaryOpExpr → UnaryOpKind
  | UnaryOpExpr.mk k _ _ => k

/-- Mirrors `UnaryOpExpr::expr`, the operand accessor read in expr.rs line 145. -/
def UnaryOpExpr.expr : UnaryOpExpr → ExprKind
  | UnaryOpExpr.mk _ e _ => e

/-- Mirrors `From<LitExprKind> for ExprKind` being the inverse data of
`LitExprKind` (expr.rs lines 101-111): the narrow literal kind. The
`CtorBlocker` of the `UnaryOp` variant is kept. -/
inductive LitExprKind where
  | Int (e : IntLitExpr)
  | Float (e : FloatLitExpr)
  | Str (e : StrLitExpr)
  | Char (e : CharLitExpr)
  | Bool (e : BoolLitExpr)
  | UnaryOp (e : UnaryOpExpr) (blocker : CtorBlocker)

/-- Mirrors `From<LitExprKind> for ExprKind` (expr.rs lines 120-131): the
total widening conversion, variant by variant. -/
def ExprKind.from_lit : LitExprKind → ExprKind
  | LitExprKind.Int e => ExprKind.IntLit e
  | LitExprKind.Float e => ExprKind.FloatLit e
  | LitExprKind.Str e => ExprKind.StrLit e
  | LitExprKind.Char e => ExprKind.CharLit e
  | LitExprKind.Bool e => ExprKind.BoolLit e
  | LitExprKind.UnaryOp e _ => ExprKind.UnaryOp e

/-- Mirrors `TryFrom<ExprKind> for LitExprKind` (expr.rs lines 133-154): the
partial narrowing conversion. A `UnaryOp` is accepted only when its operator
is `Neg` and its operand is itself convertible (the recursive
`TryInto::<LitExprKind>::try_into(expr.expr()).is_ok()` check of line 145);
every other non-literal variant is rejected (`_ => Err(())`). `Err(())` is
modelled as `none`. -/
def LitExprKind.try_from : ExprKind → Option LitExprKind
  | ExprKind.IntLit e => some (LitExprKind.Int e)
  | ExprKind.FloatLit e => some (LitExprKind.Float e)
  | ExprKind.StrLit e => some (LitExprKind.Str e)
  | ExprKind.CharLit e => some (LitExprKind.Char e)
  | ExprKind.BoolLit e => some (LitExprKind.Bool e)
  | ExprKind.UnaryOp (UnaryOpExpr.mk k operand i) =>
      if k = UnaryOpKind.Neg ∧ (LitExprKind.try_from operand).isSome then
        some (LitExprKind.UnaryOp (UnaryOpExpr.mk k operand i) CtorBlocker.new)
      else
        none
  | _ => none

/-- Classifier for the claim about rejected variants: the variants of
`ExprKind` whose head is a literal node or a `UnaryOp` (the only heads the
`TryFrom` impl of expr.rs lines 133-154 does not send straight to `Err`). -/
def ExprKind.head_is_literal_or_unary : ExprKind → Bool
  | ExprKind.IntLit _ => true
  | ExprKind.FloatLit _ => true
  | ExprKind.StrLit _ => true
  | ExprKind.CharLit _ => true
  | ExprKind.BoolLit _ => true
  | ExprKind.UnaryOp _ => true
  | _ => false

end Marker

namespace Marker

/-- Mirrors `enum ExprPrecedence` (expr.rs lines 156-245): every fixed entry
with its `repr(u32)` discriminant, plus `Unstable(i32)` carrying a
producer-supplied value. -/
inductive ExprPrecedence where
  | Lit
  | Block
  | Ctor
  | Assign
  | For
  | Loop
  | While
  | Await
  | Path
  | Method
  | Call
  | If
  | Let
  | Match
  | Field
  | Fn
  | Index
  | QuestionMark
  | Neg
  | Not
  | Deref
  | Ref
  | As
  | Mul
  | Div
  | Rem
  | Add
  | Sub
  | Shr
  | Shl
  | BitAnd
  | BitXor
  | BitOr
  | Comparison
  | And
  | Or
  | Range
  | AssignOp
  | Closure
  | Break
  | Return
  | Continue
  | Unstable (i : Int)
deriving DecidableEq, Repr

/-- The numeric value of a precedence entry: the declared discriminant of the
fixed entries (expr.rs lines 160-241), and the stored payload for
`Unstable(i32)` (expr.rs line 244). -/
def ExprPrecedence.value : ExprPrecedence → Int
  | ExprPrecedence.Lit => 0x14000000
  | ExprPrecedence.Block => 0x14000001
  | ExprPrecedence.Ctor => 0x14000002
  | ExprPrecedence.Assign => 0x14000003
  | ExprPrecedence.For => 0x14000004
  | ExprPrecedence.Loop => 0x14000005
  | ExprPrecedence.While => 0x14000006
  | ExprPrecedence.Await => 0x14000007
  | ExprPrecedence.Path => 0x13000000
  | ExprPrecedence.Method => 0x12000000
  | ExprPrecedence.Call => 0x12000001
  | ExprPrecedence.If => 0x12000002
  | ExprPrecedence.Let => 0x12000003
  | ExprPrecedence.Match => 0x12000004
  | ExprPrecedence.Field => 0x11000000
  | ExprPrecedence.Fn => 0x10000000
  | ExprPrecedence.Index => 0x10000001
  | ExprPrecedence.QuestionMark => 0x0F000000
  | ExprPrecedence.Neg => 0x0E000000
  | ExprPrecedence.Not => 0x0E000001
  | ExprPrecedence.Deref => 0x0E000002
  | ExprPrecedence.Ref => 0x0E000003
  | ExprPrecedence.As => 0x0D000000
  | ExprPrecedence.Mul => 0x0C000000
  | ExprPrecedence.Div => 0x0C000001
  | ExprPrecedence.Rem => 0x0C000002
  | ExprPrecedence.Add => 0x0B000000
  | ExprPrecedence.Sub => 0x0B000001
  | ExprPrecedence.Shr => 0x0A000000
  | ExprPrecedence.Shl => 0x0A000001
  | ExprPrecedence.BitAnd => 0x09000000
  | ExprPrecedence.BitXor => 0x08000000
  | ExprPrecedence.BitOr => 0x07000000
  | ExprPrecedence.Comparison => 0x06000000
  | ExprPrecedence.And => 0x05000000
  | ExprPrecedence.Or => 0x04000000
  | ExprPrecedence.Range => 0x03000000
  | ExprPrecedence.AssignOp => 0x02000000
  | ExprPrecedence.Closure => 0x01000000
  | ExprPrecedence.Break => 0x01000001
  | ExprPrecedence.Return => 0x01000002
  | ExprPrecedence.Continue => 0x01000003
  | ExprPrecedence.Unstable i => i

/-- Whether the entry is the `Unstable(i32)` escape hatch (expr.rs line 244). -/
def ExprPrecedence.is_unstable : ExprPrecedence → Bool
  | ExprPrecedence.Unstable _ => true
  | _ => false

/-- The band of the table that contains `Lit`: the entries with discriminants
`0x1400_0000` to `0x1400_0007` (expr.rs lines 160-167). -/
def ExprPrecedence.in_lit_band : ExprPrecedence → Bool
  | ExprPrecedence.Lit => true
  | ExprPrecedence.Block => true
  | ExprPrecedence.Ctor => true
  | ExprPrecedence.Assign => true
  | ExprPrecedence.For => true
  | ExprPrecedence.Loop => true
  | ExprPrecedence.While => true
  | ExprPrecedence.Await => true
  | _ => false

/-- The bottom band of the table: `Closure`, `Break`, `Return`, `Continue`,
discriminants `0x0100_0000` to `0x0100_0003` (expr.rs lines 238-241). -/
def ExprPrecedence.in_bottom_band : ExprPrecedence → Bool
  | ExprPrecedence.Closure => true
  | ExprPrecedence.Break => true
  | ExprPrecedence.Return => true
  | ExprPrecedence.Continue => true
  | _ => false

end Marker

namespace Marker

/-! Lint pass visitor protocol, from src/linter_api/src/lib.rs. -/

/-- Modelled from the spec: opaque `ItemType` node handed to `check_item`
(linter_api lib.rs lines 39-43; ast::item is not among the given files). -/
structure ItemType where
  id : Nat
deriving DecidableEq, Repr

/-- Modelled from the spec: opaque `ModItem` node handed to `check_mod`. -/
structure ModItem where
  id : Nat
deriving DecidableEq, Repr

/-- Modelled from the spec: opaque `ExternCrateItem` node handed to
`check_extern_crate`. -/
structure ExternCrateItem where
  id : Nat
deriving DecidableEq, Repr

/-- Modelled from the spec: opaque `UseDeclItem` node handed to `check_use_decl`. -/
structure UseDeclItem where
  id : Nat
deriving DecidableEq, Repr

/-- Modelled from the spec: opaque `StaticItem` node handed to `check_static_item`. -/
structure StaticItem where
  id : Nat
deriving DecidableEq, Repr

/-- Mirrors the `LintPass` trait as generated by `for_each_lint_pass_fn` with
`decl_lint_pass_fn` (linter_api lib.rs lines 35-86). A pass owns mutable
state of type `S` (the Rust `self`); a `&mut self` hook is a function from
the state to the updated state, a `&self` query reads the state. Per
`decl_lint_pass_fn` (lines 78-85), the one `&self` method
(`registered_lints`) has no default and must be given, while every
`&mut self` hook defaults to the empty body `{}`, which leaves the state
unchanged and returns unit - modelled as the identity on the state. -/
structure LintPass (S : Type) where
  registered_lints : S → List Lint
  check_item : S → AstContext → ItemType → S := fun s _ _ => s
  check_mod : S → AstContext → ModItem → S := fun s _ _ => s
  check_extern_crate : S → AstContext → ExternCrateItem → S := fun s _ _ => s
  check_use_decl : S → AstContext → UseDeclItem → S := fun s _ _ => s
  check_static_item : S → AstContext → StaticItem → S := fun s _ _ => s

/-- A lint pass that implements only the mandatory `registered_lints` query
and leaves every optional hook at its default. -/
def LintPass.onlyRegistered {S : Type} (rl : S → List Lint) : LintPass S :=
  { registered_lints := rl }

end Marker

namespace Marker

/-! Concrete demonstration values, used by the witness theorems. -/

/-- A file-backed span, for witnesses. -/
def demo_file_span : Span := Span.new (SpanSource.File "main.rs") 0 4

/-- A macro-backed span, for witnesses. -/
def demo_macro_span : Span := Span.new (SpanSource.Macro 0) 0 4

/-- A lint whose macro-report policy is `MacroReport::No`, for witnesses. -/
def demo_lint_no : Lint := { name := "demo_lint", report_in_macro := MacroReport.No }

/-- An emission node, for witnesses. -/
def demo_node : EmissionNode := { id := 0 }

/-- A driver callback table resolving every lint to the given level and
finding no snippet, for witnesses. -/
def demo_driver (lvl : Level) : DriverCallbacks :=
  { lint_level_at := fun _ _ => lvl
    span_snippet := fun _ => none
    span := fun _ => demo_file_span
    symbol_str := fun _ => "sym"
    expr_ty := fun _ => { id := 0 } }

/-- A context whose driver resolves every lint to `Deny`. -/
def demo_cx_deny : AstContext := { driver := demo_driver Level.Deny }

/-- A context whose driver resolves every lint to `Allow`. -/
def demo_cx_allow : AstContext := { driver := demo_driver Level.Allow }

end Marker

namespace Marker

/-- C1: for every lint whose macro-report policy is `MacroReport::No` and
every span whose provenance is `Macro(_)`, `AstContext::emit_lint` hands no
diagnostic to the driver and never runs the decoration closure, whatever
level the driver would resolve (the level callback is not even consulted:
the result is fixed before it could be). -/
theorem emit_lint_macro_suppressed
    (cx : AstContext) (lint : Lint) (node : EmissionNode) (msg : String)
    (span : Span) (decorate : DiagnosticBuilder → DiagnosticBuilder)
    (hlint : lint.report_in_macro = MacroReport.No)
    (hspan : span.is_from_macro = true) :
    cx.emit_lint lint node msg span decorate = { emitted := [], decorations := 0 } := by
  simp [AstContext.emit_lint, hlint, hspan]

/-- Witness for C1 at a concrete context, lint and macro span, with the
driver resolving the level to `Deny`. -/
theorem emit_lint_macro_suppressed_witness :
    AstContext.emit_lint demo_cx_deny demo_lint_no demo_node "msg" demo_macro_span
        (fun b => b) = { emitted := [], decorations := 0 } :=
  emit_lint_macro_suppressed demo_cx_deny demo_lint_no demo_node "msg" demo_macro_span
    (fun b => b) rfl rfl

/-- C2: when the resolved level is `Allow`, `emit_lint` hands no diagnostic
to the driver and never runs the decoration closure; when the resolved level
is not `Allow` and the macro-suppression rule does not apply, exactly one
diagnostic is handed to the driver, namely the freshly built
`DiagnosticBuilder` after the decoration closure ran on it exactly once. -/
theorem emit_lint_level_gating
    (cx : AstContext) (lint : Lint) (node : EmissionNode) (msg : String)
    (span : Span) (decorate : DiagnosticBuilder → DiagnosticBuilder) :
    (cx.lint_level_at lint node = Level.Allow →
      cx.emit_lint lint node msg span decorate = { emitted := [], decorations := 0 }) ∧
    (¬(lint.report_in_macro = MacroReport.No ∧ span.is_from_macro = true) →
      cx.lint_level_at lint node ≠ Level.Allow →
      cx.emit_lint lint node msg span decorate =
        { emitted := [decorate (DiagnosticBuilder.new lint node msg span)],
          decorations := 1 }) := by
  constructor
  · intro h
    unfold AstContext.emit_lint
    split
    · rfl
    · simp [h]
  · intro hns hl
    unfold AstContext.emit_lint
    split
    · exact absurd (by assumption) hns
    · simp [hl, DiagnosticBuilder.emit, AstContext.emit_diagnostic]

/-- Witness for C2 at concrete inputs with a file span: an `Allow` driver
emits nothing, a `Deny` driver emits exactly the decorated builder. -/
theorem emit_lint_level_gating_witness :
    AstContext.emit_lint demo_cx_allow demo_lint_no demo_node "msg" demo_file_span
        (fun b => b) = { emitted := [], decorations := 0 } ∧
    AstContext.emit_lint demo_cx_deny demo_lint_no demo_node "msg" demo_file_span
        (fun b => b) =
      { emitted := [DiagnosticBuilder.new demo_lint_no demo_node "msg" demo_file_span],
        decorations := 1 } :=
  ⟨(emit_lint_level_gating demo_cx_allow demo_lint_no demo_node "msg" demo_file_span
      (fun b => b)).1 rfl,
   (emit_lint_level_gating demo_cx_deny demo_lint_no demo_node "msg" demo_file_span
      (fun b => b)).2 (by decide) (by decide)⟩

/-- C3: every accessor routed through `with_cx` - `with_cx` itself,
`Span::snippet`, `Ident::name`, `Ident::span`, and the `span`/`ty` accessors
every expression node gets from `impl_expr_data` - hits the unrecoverable
`expect` when the thread-local slot holds no context: no value is returned,
only the panic (modelled as `Except.error`). -/
theorem accessors_error_without_context :
    ∀ (R : Type) (f : AstContext → R) (s : Span) (i : Ident) (d : CommonExprData),
      with_cx (R := R) none f = Except.error withCxPanicMsg ∧
      Span.snippet none s = Except.error withCxPanicMsg ∧
      Ident.name none i = Except.error withCxPanicMsg ∧
      Ident.span_of none i = Except.error withCxPanicMsg ∧
      exprDataSpan none d = Except.error withCxPanicMsg ∧
      exprDataTy none d = Except.error withCxPanicMsg :=
  fun _ _ _ _ _ => ⟨rfl, rfl, rfl, rfl, rfl, rfl⟩

/-- Counterexample to C4: with a context already installed (`Deny` context),
`set_ast_cx` with a second, different context (`Allow` context) succeeds and
the slot afterwards holds the new context - a silent replacement, with no
assertion rejecting the nested install. -/
theorem set_ast_cx_silent_replace_cex :
    set_ast_cx (some demo_cx_deny) demo_cx_allow = some demo_cx_allow ∧
    demo_cx_allow ≠ demo_cx_deny := by
  refine ⟨rfl, fun h => ?_⟩
  have h2 : Level.Allow = Level.Deny :=
    congrArg (fun c => c.driver.lint_level_at demo_lint_no demo_node) h
  exact absurd h2 (by decide)

/-- C4 as amended: the thread-local slot holds at most one context (it is an
optional value), but `set_ast_cx` unconditionally overwrites it with the new
context - `cx.replace(Some(cx_static))` - silently discarding any previously
installed one; no assertion, debug or otherwise, rejects a nested install. -/
theorem set_ast_cx_overwrites (slot : Option AstContext) (cx : AstContext) :
    set_ast_cx slot cx = some cx := rfl

end Marker

namespace Marker

/-- C5: a unary negation whose operand is itself classifiable as a literal
narrows to `LitExprKind::UnaryOp` holding the same node, and widening back
yields `ExprKind::UnaryOp` with that identical node; a `UnaryOp` whose
operator is not `Neg` or whose operand is not classifiable fails to narrow,
as does every variant that is neither a literal nor a `UnaryOp`; the
widening conversion is total. -/
theorem lit_expr_roundtrip :
    (∀ (u : UnaryOpExpr), u.kind = UnaryOpKind.Neg →
        (LitExprKind.try_from u.expr).isSome = true →
        LitExprKind.try_from (ExprKind.UnaryOp u)
            = some (LitExprKind.UnaryOp u CtorBlocker.new) ∧
        ExprKind.from_lit (LitExprKind.UnaryOp u CtorBlocker.new) = ExprKind.UnaryOp u) ∧
    (∀ (u : UnaryOpExpr),
        ¬(u.kind = UnaryOpKind.Neg ∧ (LitExprKind.try_from u.expr).isSome = true) →
        LitExprKind.try_from (ExprKind.UnaryOp u) = none) ∧
    (∀ (e : ExprKind), e.head_is_literal_or_unary = false →
        LitExprKind.try_from e = none) ∧
    (∀ (l : LitExprKind), ∃ (e : ExprKind), ExprKind.from_lit l = e) := by
  refine ⟨?_, ?_, ?_, fun l => ⟨_, rfl⟩⟩
  · intro u hk ho
    cases u with
    | mk k operand i =>
      simp only [UnaryOpExpr.kind] at hk
      simp only [UnaryOpExpr.expr] at ho
      subst hk
      simp [LitExprKind.try_from, ho, ExprKind.from_lit]
  · intro u hno
    cases u with
    | mk k operand i =>
      simp only [UnaryOpExpr.kind, UnaryOpExpr.expr] at hno
      simp [LitExprKind.try_from, hno]
  · intro e he
    cases e <;> simp_all [ExprKind.head_is_literal_or_unary, LitExprKind.try_from]

/-- A concrete negative literal: unary negation wrapping an integer literal. -/
def demo_neg_lit : UnaryOpExpr := UnaryOpExpr.mk UnaryOpKind.Neg (ExprKind.IntLit ⟨7⟩) 1

/-- Witness for C5 at the concrete negative literal `demo_neg_lit`. -/
theorem lit_expr_roundtrip_witness :
    LitExprKind.try_from (ExprKind.UnaryOp demo_neg_lit)
        = some (LitExprKind.UnaryOp demo_neg_lit CtorBlocker.new) ∧
    ExprKind.from_lit (LitExprKind.UnaryOp demo_neg_lit CtorBlocker.new)
        = ExprKind.UnaryOp demo_neg_lit :=
  lit_expr_roundtrip.1 demo_neg_lit rfl rfl

/-- C6: `is_from_file` holds exactly for `File` and `Sugar` provenance,
`is_from_macro` exactly for `Macro` provenance, and the two predicates are
mutually exclusive on every span. -/
theorem span_provenance_predicates (s : Span) :
    (s.is_from_file = true ↔
      (∃ p, s.source = SpanSource.File p) ∨ ∃ p i, s.source = SpanSource.Sugar p i) ∧
    (s.is_from_macro = true ↔ ∃ i, s.source = SpanSource.Macro i) ∧
    ¬(s.is_from_file = true ∧ s.is_from_macro = true) := by
  obtain ⟨src, a, b⟩ := s
  cases src <;> simp [Span.is_from_file, Span.is_from_macro]

/-- Counterexample to C7: starting from the valid span `[0, 5)` in a file,
`set_start 10` yields a span with `end < start` - `set_start` stores the
value unchecked, so it does not preserve the claimed invariant. -/
theorem span_set_start_invariant_cex :
    ((Span.new (SpanSource.File "a.rs") 0 5).set_start 10).endPos
      < ((Span.new (SpanSource.File "a.rs") 0 5).set_start 10).start := by
  decide

/-- C7 as amended: `is_empty` returns true exactly when `start = end`, and
zero-width spans are representable; but `set_start`, `set_end` and
`Span::new` store the given positions without any validation (each leaves
the other fields unchanged), so no operation enforces `start <= end` and the
invariant can be broken (see the counterexample). -/
theorem span_ops_amended (s : Span) (v : Nat) :
    (s.is_empty = true ↔ s.start = s.endPos) ∧
    (s.set_start v).start = v ∧
    (s.set_start v).endPos = s.endPos ∧
    (s.set_start v).source = s.source ∧
    (s.set_end v).endPos = v ∧
    (s.set_end v).start = s.start ∧
    (s.set_end v).source = s.source ∧
    (Span.new s.source s.start s.endPos = s) ∧
    (Span.new (SpanSource.File "a.rs") 3 3).is_empty = true := by
  refine ⟨?_, rfl, rfl, rfl, rfl, rfl, rfl, rfl, rfl⟩
  simp [Span.is_empty]

/-- Counterexample to C8: `Block` is a fixed (non-`Unstable`) entry distinct
from `Lit`, yet its table value is strictly greater than the value of
`Lit` - so `Lit` is not greater than or equal to every other fixed entry. -/
theorem precedence_lit_not_max_cex :
    ExprPrecedence.value ExprPrecedence.Lit < ExprPrecedence.value ExprPrecedence.Block := by
  decide

/-- C8 as amended: every entry maps to one integer via `value`; the band
containing `Lit` (`Lit`, `Block`, `Ctor`, `Assign`, `For`, `Loop`, `While`,
`Await`, discriminants `0x1400_0000..0x1400_0007`) is the top band - every
fixed entry outside it is strictly below `Lit`, and every member is at least
`Lit`; the `Closure`/`Break`/`Return`/`Continue` band is the bottom band -
every fixed entry outside it is strictly above `Continue`, and every member
is at most `Continue`; `Unstable(i)` carries the producer-supplied value. -/
theorem precedence_bands_amended :
    (∀ p : ExprPrecedence, p.is_unstable = false → p.in_lit_band = false →
        p.value < ExprPrecedence.value ExprPrecedence.Lit) ∧
    (∀ p : ExprPrecedence, p.in_lit_band = true →
        ExprPrecedence.value ExprPrecedence.Lit ≤ p.value) ∧
    (∀ p : ExprPrecedence, p.is_unstable = false → p.in_bottom_band = false →
        ExprPrecedence.value ExprPrecedence.Continue < p.value) ∧
    (∀ p : ExprPrecedence, p.in_bottom_band = true →
        p.value ≤ ExprPrecedence.value ExprPrecedence.Continue) ∧
    (∀ i : Int, ExprPrecedence.value (ExprPrecedence.Unstable i) = i) := by
  refine ⟨?_, ?_, ?_, ?_, fun i => rfl⟩ <;>
    intro p <;>
    cases p <;>
    simp_all [ExprPrecedence.is_unstable, ExprPrecedence.in_lit_band,
      ExprPrecedence.in_bottom_band] <;>
    decide

/-- Witness for C8 (amended) at concrete entries: `Path` (outside the top
band) is below `Lit`, and `AssignOp` (outside the bottom band) is above
`Continue`. -/
theorem precedence_bands_amended_witness :
    ExprPrecedence.value ExprPrecedence.Path < ExprPrecedence.value ExprPrecedence.Lit ∧
    ExprPrecedence.value ExprPrecedence.Continue
      < ExprPrecedence.value ExprPrecedence.AssignOp :=
  ⟨precedence_bands_amended.1 ExprPrecedence.Path rfl rfl,
   precedence_bands_amended.2.2.1 ExprPrecedence.AssignOp rfl rfl⟩

end Marker

namespace Marker

/-- C9: a lint pass implementing only the mandatory `registered_lints` query
leaves every optional hook at its default, and each default hook is an
observable no-op on any node: it returns the pass state unchanged (no state
is mutated, nothing can fail); the mandatory query is exactly the supplied
one. -/
theorem lint_pass_default_hooks_noop {S : Type} (rl : S → List Lint) (s : S)
    (cx : AstContext) (it : ItemType) (m : ModItem) (ec : ExternCrateItem)
    (u : UseDeclItem) (st : StaticItem) :
    (LintPass.onlyRegistered rl).check_item s cx it = s ∧
    (LintPass.onlyRegistered rl).check_mod s cx m = s ∧
    (LintPass.onlyRegistered rl).check_extern_crate s cx ec = s ∧
    (LintPass.onlyRegistered rl).check_use_decl s cx u = s ∧
    (LintPass.onlyRegistered rl).check_static_item s cx st = s ∧
    (LintPass.onlyRegistered rl).registered_lints = rl :=
  ⟨rfl, rfl, rfl, rfl, rfl, rfl⟩

/-- C10: with a context installed, `snippet_with_applicability` never changes
an `Unspecified` applicability; a non-`Unspecified` applicability on a macro
span becomes `MaybeIncorrect` (whether or not the snippet is found); on a
non-macro span, a missing snippet returns the default string and downgrades
`MachineApplicable` to `HasPlaceholders`, while an available snippet is
returned as is with the applicability untouched. -/
theorem snippet_with_applicability_spec (cx : AstContext) (s : Span)
    (dflt : String) (a : Applicability) :
    (a = Applicability.Unspecified →
        Span.snippet_with_applicability (some cx) s dflt a
          = Except.ok ((cx.span_snipped s).getD dflt, Applicability.Unspecified)) ∧
    (a ≠ Applicability.Unspecified → s.is_from_macro = true →
        Span.snippet_with_applicability (some cx) s dflt a
          = Except.ok ((cx.span_snipped s).getD dflt, Applicability.MaybeIncorrect)) ∧
    (s.is_from_macro = false →
        (cx.span_snipped s = none →
          Span.snippet_with_applicability (some cx) s dflt a
            = Except.ok (dflt, if a = Applicability.MachineApplicable
                then Applicability.HasPlaceholders else a)) ∧
        (∀ text, cx.span_snipped s = some text →
          Span.snippet_with_applicability (some cx) s dflt a
            = Except.ok (text, a))) := by
  refine ⟨?_, ?_, ?_⟩
  · intro ha
    subst ha
    unfold Span.snippet_with_applicability Span.snippet with_cx
    cases hsnip : cx.span_snipped s <;> simp [hsnip]
  · intro ha hm
    unfold Span.snippet_with_applicability Span.snippet with_cx
    cases hsnip : cx.span_snipped s <;> simp [hsnip, ha, hm]
  · intro hm
    constructor
    · intro hsnip
      unfold Span.snippet_with_applicability Span.snippet with_cx
      simp [hsnip, hm]
    · intro text hsnip
      unfold Span.snippet_with_applicability Span.snippet with_cx
      simp [hsnip, hm]

/-- Witness for C10: with the demo driver (which finds no snippet) on a file
span, a `MachineApplicable` applicability is downgraded to `HasPlaceholders`
and the default string is returned. -/
theorem snippet_with_applicability_spec_witness :
    Span.snippet_with_applicability (some demo_cx_deny) demo_file_span "dflt"
        Applicability.MachineApplicable
      = Except.ok ("dflt", Applicability.HasPlaceholders) :=
  ((snippet_with_applicability_spec demo_cx_deny demo_file_span "dflt"
      Applicability.MachineApplicable).2.2 rfl).1 rfl

end Marker
